import Mathlib

/-!
Verification of the heat resource-lifecycle core (task runner, resource
state machine, polling protocol) and of the Neutron firewall plugin
handlers (`heat/engine/resources/neutron/firewall.py`).

The lifecycle core itself (scheduler / `RemoteStack` resource) is not among
the shown sources; it is modelled from the specification, with the remote
stack tests (`heat/tests/test_remote_stack.py`) pinning the observable
messages and states. The firewall handlers are embedded directly from
their Python source.
-/

namespace Heat

/-- Lifecycle actions of a resource instance (spec section 3). -/
inductive Action where
  | INIT
  | CREATE
  | UPDATE
  | DELETE
  | SUSPEND
  | RESUME
deriving DecidableEq, Repr

/-- Lifecycle statuses of a resource instance (spec section 3). -/
inductive Status where
  | IN_PROGRESS
  | COMPLETE
  | FAILED
  | UNKNOWN
deriving DecidableEq, Repr

/-- Upper-case action name as used in remote status strings
(`get_stack` in the tests builds statuses such as "CREATE_COMPLETE"). -/
def Action.toStr : Action → String
  | .INIT => "INIT"
  | .CREATE => "CREATE"
  | .UPDATE => "UPDATE"
  | .DELETE => "DELETE"
  | .SUSPEND => "SUSPEND"
  | .RESUME => "RESUME"

/-- Lower-case action name as used in the NotFound message
("Cannot resume remote_stack, resource not found" in the tests). -/
def Action.toLowerStr : Action → String
  | .INIT => "init"
  | .CREATE => "create"
  | .UPDATE => "update"
  | .DELETE => "delete"
  | .SUSPEND => "suspend"
  | .RESUME => "resume"

/-- Modelled from the spec: a ResourceInstance (spec section 3) — the
lifecycle core's view of one resource: an optional backend identity, the
`(action, status)` state pair and an optional failure reason. -/
structure Resource where
  name : String
  identity : Option String
  action : Action
  status : Status
  failure_reason : Option String
deriving DecidableEq, Repr

/-- One result of the polling protocol's probe: either a remote status
string with a reason, or a not-found signal (spec section 4.3). -/
inductive Probe where
  | found (stack_status : String) (reason : String)
  | notFound
deriving DecidableEq, Repr

/-- Structured error kinds surfaced by the core (spec section 7). -/
inductive Err where
  | NotFound (msg : String)
  | ReplacementRequired
  | TransportError
  | ResourceInError (msg : String)
  | ResourceUnknownStatus (msg : String)
  | Timeout
  | Cancelled
  | InvalidAttribute (msg : String)
deriving DecidableEq, Repr

/-- Result of the single backend mutating call performed in step 1 of the
task runner (spec section 4.2): success (for CREATE, carrying the new
identity returned by `createRemote`), a not-found signal, or a
transport-level fault. -/
inductive BackendResult where
  | ok (ident : Option String)
  | gone
  | fault
deriving DecidableEq, Repr

/-- What an invocation of `perform`/`run` leaves behind: the resource in
its final state, the outcome, and the observable effect counters the
tests record (mutating backend calls, probe calls, whether a polling task
was started at all). -/
structure RunResult where
  resource : Resource
  outcome : Except Err Unit
  remoteCalls : Nat
  probeCalls : Nat
  taskStarted : Bool
deriving Repr

/-- Modelled from the spec: classification of a raw remote status string
for the current action (spec sections 4.2/4.3): only
`<ACTION>_{IN_PROGRESS,COMPLETE,FAILED}` is recognized, anything else is
an unknown status. -/
def classify (act : Action) (s : String) : Option Status :=
  if s = act.toStr ++ "_IN_PROGRESS" then some Status.IN_PROGRESS
  else if s = act.toStr ++ "_COMPLETE" then some Status.COMPLETE
  else if s = act.toStr ++ "_FAILED" then some Status.FAILED
  else none

/-- Modelled from the spec: the task runner's poll loop (spec section 4.2,
step 2), missing from the shown sources. It consumes the sequence of
probe results the remote side will report, counting probe calls:
IN_PROGRESS keeps polling; COMPLETE succeeds; FAILED marks the resource
FAILED with the probe's reason and fails with `ResourceInError`
(`Went to status <STATUS> due to "<reason>"`); an unrecognized status
marks the resource FAILED and fails with `ResourceUnknownStatus`
(`Resource failed - Unknown status <STATUS>`); a not-found signal is
immediate success for DELETE (spec section 4.1) and `NotFound` otherwise;
an exhausted sequence is the timeout of step 3. -/
def pollLoop (act : Action) (r : Resource) (probes : List Probe) (calls : Nat) :
    Resource × Except Err Unit × Nat :=
  match probes with
  | [] => ({ r with status := Status.FAILED }, Except.error Err.Timeout, calls)
  | Probe.notFound :: _ =>
      if act = Action.DELETE then
        ({ r with status := Status.COMPLETE }, Except.ok (), calls + 1)
      else
        ({ r with status := Status.FAILED },
         Except.error (Err.NotFound ("Cannot " ++ act.toLowerStr ++ " " ++ r.name ++
           ", resource not found")), calls + 1)
  | Probe.found s reason :: rest =>
      match classify act s with
      | some Status.IN_PROGRESS => pollLoop act r rest (calls + 1)
      | some Status.COMPLETE =>
          ({ r with status := Status.COMPLETE }, Except.ok (), calls + 1)
      | some Status.FAILED =>
          ({ r with status := Status.FAILED, failure_reason := some reason },
           Except.error (Err.ResourceInError ("Went to status " ++ s ++
             " due to \"" ++ reason ++ "\"")), calls + 1)
      | _ =>
          ({ r with status := Status.FAILED },
           Except.error (Err.ResourceUnknownStatus ("Resource failed - Unknown status " ++ s)),
           calls + 1)

/-- Which actions require `resource.identity` to be set (spec section
4.1: UPDATE/DELETE/SUSPEND/RESUME). -/
def requiresIdentity : Action → Bool
  | Action.UPDATE => true
  | Action.DELETE => true
  | Action.SUSPEND => true
  | Action.RESUME => true
  | _ => false

/-- Modelled from the spec: `perform(action, resource)` followed by the
task runner's `run` (spec sections 4.1/4.2), missing from the shown
sources. If the action requires an identity and none is set, it fails
immediately with `NotFound` and zero remote calls, no task started
(the resource is left at `(action, FAILED)`, as the tests
`test_suspend_failed_not_created`/`test_resume_failed_not_created`
assert). An UPDATE that cannot be applied in place raises
`ReplacementRequired` before any remote call, leaving the prior state
intact. Otherwise the action is set with status IN_PROGRESS, exactly one
backend mutating call is made (a CREATE assigns the returned identity,
at most once), and the poll loop resolves the terminal state. A
not-found signal from the mutating call itself is immediate success for
DELETE. -/
def perform (act : Action) (r : Resource) (backend : BackendResult)
    (probes : List Probe) (replace : Bool) : RunResult :=
  if requiresIdentity act ∧ r.identity = none then
    { resource := { r with action := act, status := Status.FAILED },
      outcome := Except.error (Err.NotFound ("Cannot " ++ act.toLowerStr ++ " " ++ r.name ++
        ", resource not found")),
      remoteCalls := 0, probeCalls := 0, taskStarted := false }
  else if act = Action.UPDATE ∧ replace then
    { resource := r, outcome := Except.error Err.ReplacementRequired,
      remoteCalls := 0, probeCalls := 0, taskStarted := false }
  else
    let r1 : Resource := { r with action := act, status := Status.IN_PROGRESS }
    match backend with
    | BackendResult.fault =>
        { resource := { r1 with status := Status.FAILED },
          outcome := Except.error Err.TransportError,
          remoteCalls := 1, probeCalls := 0, taskStarted := true }
    | BackendResult.gone =>
        if act = Action.DELETE then
          { resource := { r1 with status := Status.COMPLETE }, outcome := Except.ok (),
            remoteCalls := 1, probeCalls := 0, taskStarted := true }
        else
          { resource := { r1 with status := Status.FAILED },
            outcome := Except.error (Err.NotFound ("Cannot " ++ act.toLowerStr ++ " " ++
              r.name ++ ", resource not found")),
            remoteCalls := 1, probeCalls := 0, taskStarted := true }
    | BackendResult.ok ident =>
        let r2 : Resource :=
          if act = Action.CREATE ∧ r1.identity = none then { r1 with identity := ident }
          else r1
        let res := pollLoop act r2 probes 0
        { resource := res.1, outcome := res.2.1,
          remoteCalls := 1, probeCalls := res.2.2, taskStarted := true }

/-- Modelled from the spec: attribute lookup against the structured
attributes returned by `showAttributes` (spec section 4.3); an absent
name fails with `InvalidAttribute`
("The Referenced Attribute (<resource> <name>) is incorrect."), as the
test `test_attribute_failed` asserts. -/
def FnGetAtt (resName : String) (attrs : List (String × String)) (key : String) :
    Except Err String :=
  match attrs.lookup key with
  | some v => Except.ok v
  | none => Except.error (Err.InvalidAttribute ("The Referenced Attribute (" ++ resName ++
      " " ++ key ++ ") is incorrect."))

/-- A remote (Neutron) call issued by a firewall-family handler,
embedded from `firewall.py`. -/
inductive NeutronCall where
  | update_firewall (resource_id : String) (prop_diff : List (String × String))
  | update_firewall_policy (resource_id : String) (prop_diff : List (String × String))
  | update_firewall_rule (resource_id : String) (prop_diff : List (String × String))
deriving DecidableEq, Repr

/-- `Firewall.handle_update` (firewall.py lines 67-70): calls
`update_firewall` only when `prop_diff` is truthy, i.e. non-empty. The
returned list is the sequence of remote calls made. -/
def Firewall.handle_update (resource_id : String) (prop_diff : List (String × String)) :
    List NeutronCall :=
  if prop_diff.isEmpty then []
  else [NeutronCall.update_firewall resource_id prop_diff]

/-- `FirewallPolicy.handle_update` (firewall.py lines 125-128). -/
def FirewallPolicy.handle_update (resource_id : String) (prop_diff : List (String × String)) :
    List NeutronCall :=
  if prop_diff.isEmpty then []
  else [NeutronCall.update_firewall_policy resource_id prop_diff]

/-- `FirewallRule.handle_update` (firewall.py lines 215-218). -/
def FirewallRule.handle_update (resource_id : String) (prop_diff : List (String × String)) :
    List NeutronCall :=
  if prop_diff.isEmpty then []
  else [NeutronCall.update_firewall_rule resource_id prop_diff]

/-- Outcome of the `delete_firewall` client call in
`Firewall.handle_delete`: success, or a `NeutronClientException` with a
status code. -/
inductive DeleteOutcome where
  | ok
  | clientError (status_code : Nat)
deriving DecidableEq, Repr

/-- `Firewall.handle_delete` (firewall.py lines 72-80): a client error
with status code 404 is swallowed (the remote resource is already gone)
and `_confirm_delete` is not run; any other client error is re-raised;
on success the `_confirm_delete` task runner is invoked. The boolean
records whether `_confirm_delete` was run. -/
def Firewall.handle_delete (res : DeleteOutcome) : Except Nat Bool :=
  match res with
  | DeleteOutcome.ok => Except.ok true
  | DeleteOutcome.clientError c =>
      if c ≠ 404 then Except.error c else Except.ok false

/-- The remote stack resource as initialized by the tests: name
`remote_stack`, no backend identity yet, state `(INIT, COMPLETE)`. -/
def initResource : Resource :=
  { name := "remote_stack", identity := none, action := Action.INIT,
    status := Status.COMPLETE, failure_reason := none }

/-- The remote stack resource after a successful create, as the tests
leave it (`create_remote_stack`): identity set to the backend stack id. -/
def createdResource : Resource :=
  { name := "remote_stack", identity := some "c8a19429-7fde-47ea-a42f-40045488226c",
    action := Action.CREATE, status := Status.COMPLETE, failure_reason := none }

theorem classify_in_progress (act : Action) :
    classify act (act.toStr ++ "_IN_PROGRESS") = some Status.IN_PROGRESS := by
  cases act <;> decide

theorem classify_complete (act : Action) :
    classify act (act.toStr ++ "_COMPLETE") = some Status.COMPLETE := by
  cases act <;> decide

theorem classify_failed (act : Action) :
    classify act (act.toStr ++ "_FAILED") = some Status.FAILED := by
  cases act <;> decide

/-- A run of probes the runner classifies as IN_PROGRESS is consumed
entirely, one probe call each, before the rest of the sequence. -/
theorem pollLoop_consumes_in_progress (act : Action) (r : Resource) (ps qs : List Probe)
    (c : Nat)
    (hps : ∀ p ∈ ps, ∃ rr, p = Probe.found (act.toStr ++ "_IN_PROGRESS") rr) :
    pollLoop act r (ps ++ qs) c = pollLoop act r qs (c + ps.length) := by
  induction ps generalizing c with
  | nil => simp
  | cons p rest ih =>
      obtain ⟨rr, rfl⟩ := hps p (List.mem_cons_self p rest)
      have h2 : ∀ q ∈ rest, ∃ rr, q = Probe.found (act.toStr ++ "_IN_PROGRESS") rr :=
        fun q hq => hps q (List.mem_cons_of_mem _ hq)
      simp only [List.cons_append, pollLoop, classify_in_progress]
      show pollLoop act r (rest ++ qs) (c + 1) = _
      rw [ih (c + 1) h2]
      have hlen : c + 1 + rest.length =
          c + (Probe.found (act.toStr ++ "_IN_PROGRESS") rr :: rest).length := by
        simp only [List.length_cons]
        omega
      rw [hlen]

/-- The poll loop always resolves the status to a terminal value. -/
theorem pollLoop_terminal (act : Action) (ps : List Probe) (r : Resource) (c : Nat) :
    (pollLoop act r ps c).1.status = Status.COMPLETE ∨
    (pollLoop act r ps c).1.status = Status.FAILED := by
  induction ps generalizing r c with
  | nil => right; rfl
  | cons p rest ih =>
      cases p with
      | notFound =>
          by_cases h : act = Action.DELETE
          · left; simp [pollLoop, h]
          · right; simp [pollLoop, h]
      | found s reason =>
          rcases hcl : classify act s with _ | st
          · right; simp [pollLoop, hcl]
          · cases st with
            | IN_PROGRESS =>
                have := ih r (c + 1)
                simpa [pollLoop, hcl] using this
            | COMPLETE => left; simp [pollLoop, hcl]
            | FAILED => right; simp [pollLoop, hcl]
            | UNKNOWN => right; simp [pollLoop, hcl]

/-- The poll loop never touches the identity field. -/
theorem pollLoop_identity (act : Action) (ps : List Probe) (r : Resource) (c : Nat) :
    (pollLoop act r ps c).1.identity = r.identity := by
  induction ps generalizing r c with
  | nil => rfl
  | cons p rest ih =>
      cases p with
      | notFound => by_cases h : act = Action.DELETE <;> simp [pollLoop, h]
      | found s reason =>
          rcases hcl : classify act s with _ | st
          · simp [pollLoop, hcl]
          · cases st with
            | IN_PROGRESS => simpa [pollLoop, hcl] using ih r (c + 1)
            | COMPLETE => simp [pollLoop, hcl]
            | FAILED => simp [pollLoop, hcl]
            | UNKNOWN => simp [pollLoop, hcl]

/-- The poll loop never touches the action field. -/
theorem pollLoop_action (act : Action) (ps : List Probe) (r : Resource) (c : Nat) :
    (pollLoop act r ps c).1.action = r.action := by
  induction ps generalizing r c with
  | nil => rfl
  | cons p rest ih =>
      cases p with
      | notFound => by_cases h : act = Action.DELETE <;> simp [pollLoop, h]
      | found s reason =>
          rcases hcl : classify act s with _ | st
          · simp [pollLoop, hcl]
          · cases st with
            | IN_PROGRESS => simpa [pollLoop, hcl] using ih r (c + 1)
            | COMPLETE => simp [pollLoop, hcl]
            | FAILED => simp [pollLoop, hcl]
            | UNKNOWN => simp [pollLoop, hcl]

/-- Claim C1: for every resource whose identity is unset, invoking any of
update, delete, suspend or resume fails immediately with kind `NotFound`
carrying the message "Cannot <action> <name>, resource not found", zero
remote calls are made and no task is started (the resource is left at
`(action, FAILED)`, as the tests assert). -/
theorem notFound_when_identity_unset (act : Action) (r : Resource) (b : BackendResult)
    (ps : List Probe) (rep : Bool)
    (hact : act = Action.UPDATE ∨ act = Action.DELETE ∨ act = Action.SUSPEND ∨
      act = Action.RESUME)
    (hid : r.identity = none) :
    perform act r b ps rep =
      { resource := { r with action := act, status := Status.FAILED },
        outcome := Except.error (Err.NotFound ("Cannot " ++ act.toLowerStr ++ " " ++
          r.name ++ ", resource not found")),
        remoteCalls := 0, probeCalls := 0, taskStarted := false } := by
  have hreq : requiresIdentity act = true := by
    rcases hact with h | h | h | h <;> subst h <;> rfl
  simp [perform, hreq, hid]

/-- Witness for C1 at the concrete input of `test_resume_failed_not_created`:
resuming the not-yet-created remote stack. -/
theorem notFound_when_identity_unset_witness :
    perform Action.RESUME initResource (BackendResult.ok none) [] false =
      { resource := { initResource with action := Action.RESUME, status := Status.FAILED },
        outcome := Except.error (Err.NotFound "Cannot resume remote_stack, resource not found"),
        remoteCalls := 0, probeCalls := 0, taskStarted := false } :=
  notFound_when_identity_unset Action.RESUME initResource (BackendResult.ok none) [] false
    (Or.inr (Or.inr (Or.inr rfl))) rfl

/-- Claim C7: when an UPDATE cannot be applied in place, the operation
raises the distinct `ReplacementRequired` signal before any remote call
and before any state mutation: the result carries the resource unchanged
and zero remote calls. -/
theorem update_replace_aborts (r : Resource) (iden : String) (b : BackendResult)
    (ps : List Probe)
    (hid : r.identity = some iden) :
    perform Action.UPDATE r b ps true =
      { resource := r, outcome := Except.error Err.ReplacementRequired,
        remoteCalls := 0, probeCalls := 0, taskStarted := false } := by
  simp [perform, hid]

/-- Witness for C7 at the concrete input of `test_update_with_replace`:
updating the created remote stack with a replacement-triggering diff. -/
theorem update_replace_aborts_witness :
    perform Action.UPDATE createdResource (BackendResult.ok none) [] true =
      { resource := createdResource, outcome := Except.error Err.ReplacementRequired,
        remoteCalls := 0, probeCalls := 0, taskStarted := false } :=
  update_replace_aborts createdResource "c8a19429-7fde-47ea-a42f-40045488226c"
    (BackendResult.ok none) [] rfl

/-- Claim C9: for action CREATE with probe sequence
[CREATE_IN_PROGRESS, CREATE_COMPLETE], the run terminates successfully in
state (CREATE, COMPLETE) and the probe is invoked exactly 2 times
(`test_create`). -/
theorem create_round_trip :
    (perform Action.CREATE initResource
        (BackendResult.ok (some "c8a19429-7fde-47ea-a42f-40045488226c"))
        [Probe.found "CREATE_IN_PROGRESS" "", Probe.found "CREATE_COMPLETE" ""]
        false).outcome = Except.ok () ∧
    (perform Action.CREATE initResource
        (BackendResult.ok (some "c8a19429-7fde-47ea-a42f-40045488226c"))
        [Probe.found "CREATE_IN_PROGRESS" "", Probe.found "CREATE_COMPLETE" ""]
        false).resource.action = Action.CREATE ∧
    (perform Action.CREATE initResource
        (BackendResult.ok (some "c8a19429-7fde-47ea-a42f-40045488226c"))
        [Probe.found "CREATE_IN_PROGRESS" "", Probe.found "CREATE_COMPLETE" ""]
        false).resource.status = Status.COMPLETE ∧
    (perform Action.CREATE initResource
        (BackendResult.ok (some "c8a19429-7fde-47ea-a42f-40045488226c"))
        [Probe.found "CREATE_IN_PROGRESS" "", Probe.found "CREATE_COMPLETE" ""]
        false).resource.identity = some "c8a19429-7fde-47ea-a42f-40045488226c" ∧
    (perform Action.CREATE initResource
        (BackendResult.ok (some "c8a19429-7fde-47ea-a42f-40045488226c"))
        [Probe.found "CREATE_IN_PROGRESS" "", Probe.found "CREATE_COMPLETE" ""]
        false).probeCalls = 2 :=
  ⟨rfl, rfl, rfl, rfl, rfl⟩

/-- Claim C10: for each firewall-family resource (Firewall,
FirewallPolicy, FirewallRule), `handle_update` makes no remote update
call exactly when the property diff is empty: the backend is contacted
only for a non-empty diff (firewall.py lines 67-70, 125-128, 215-218). -/
theorem handle_update_empty_diff_no_call (rid : String) (d : List (String × String)) :
    (Firewall.handle_update rid d = [] ↔ d = []) ∧
    (FirewallPolicy.handle_update rid d = [] ↔ d = []) ∧
    (FirewallRule.handle_update rid d = [] ↔ d = []) := by
  cases d <;>
    simp [Firewall.handle_update, FirewallPolicy.handle_update, FirewallRule.handle_update]

/-- Claim C2: for every observed probe sequence whose last result has
phase FAILED matching the current action (all earlier observed results
being the in-progress status for that action), the run marks the
resource status FAILED, captures the failure reason, and fails with kind
`ResourceInError` whose message is exactly
`Went to status <STATUS> due to "<reason>"` with the literal reason from
the last probe. -/
theorem failed_probe_resource_in_error (act : Action) (r : Resource)
    (oid : Option String) (ps : List Probe) (reason : String)
    (hid : ¬ (requiresIdentity act = true ∧ r.identity = none))
    (hps : ∀ p ∈ ps, ∃ rr, p = Probe.found (act.toStr ++ "_IN_PROGRESS") rr) :
    (perform act r (BackendResult.ok oid)
        (ps ++ [Probe.found (act.toStr ++ "_FAILED") reason]) false).outcome =
      Except.error (Err.ResourceInError ("Went to status " ++ (act.toStr ++ "_FAILED") ++
        " due to \"" ++ reason ++ "\"")) ∧
    (perform act r (BackendResult.ok oid)
        (ps ++ [Probe.found (act.toStr ++ "_FAILED") reason]) false).resource.status =
      Status.FAILED ∧
    (perform act r (BackendResult.ok oid)
        (ps ++ [Probe.found (act.toStr ++ "_FAILED") reason]) false).resource.failure_reason =
      some reason := by
  have key : ∀ r2 : Resource,
      pollLoop act r2 (ps ++ [Probe.found (act.toStr ++ "_FAILED") reason]) 0 =
        ({ r2 with status := Status.FAILED, failure_reason := some reason },
         Except.error (Err.ResourceInError ("Went to status " ++ (act.toStr ++ "_FAILED") ++
           " due to \"" ++ reason ++ "\"")),
         ps.length + 1) := by
    intro r2
    rw [pollLoop_consumes_in_progress act r2 ps _ 0 hps]
    simp [pollLoop, classify_failed]
  by_cases hcr : act = Action.CREATE ∧ r.identity = none
  · obtain ⟨ha, hb⟩ := hcr
    subst ha
    simp [perform, requiresIdentity, hb, key]
  · simp [perform, hid, hcr, key]

/-- Witness for C2 at the concrete input of `test_create_failed`: a fresh
CREATE (identity unset) whose probes are
[CREATE_IN_PROGRESS, CREATE_FAILED("Remote stack creation failed")]. -/
theorem failed_probe_resource_in_error_witness :
    (perform Action.CREATE initResource
        (BackendResult.ok (some "c8a19429-7fde-47ea-a42f-40045488226c"))
        ([Probe.found (Action.CREATE.toStr ++ "_IN_PROGRESS") ""] ++
          [Probe.found (Action.CREATE.toStr ++ "_FAILED") "Remote stack creation failed"])
        false).outcome =
      Except.error (Err.ResourceInError ("Went to status " ++
        (Action.CREATE.toStr ++ "_FAILED") ++ " due to \"" ++
        "Remote stack creation failed" ++ "\"")) ∧
    (perform Action.CREATE initResource
        (BackendResult.ok (some "c8a19429-7fde-47ea-a42f-40045488226c"))
        ([Probe.found (Action.CREATE.toStr ++ "_IN_PROGRESS") ""] ++
          [Probe.found (Action.CREATE.toStr ++ "_FAILED") "Remote stack creation failed"])
        false).resource.status = Status.FAILED ∧
    (perform Action.CREATE initResource
        (BackendResult.ok (some "c8a19429-7fde-47ea-a42f-40045488226c"))
        ([Probe.found (Action.CREATE.toStr ++ "_IN_PROGRESS") ""] ++
          [Probe.found (Action.CREATE.toStr ++ "_FAILED") "Remote stack creation failed"])
        false).resource.failure_reason = some "Remote stack creation failed" :=
  failed_probe_resource_in_error Action.CREATE initResource
    (some "c8a19429-7fde-47ea-a42f-40045488226c")
    [Probe.found (Action.CREATE.toStr ++ "_IN_PROGRESS") ""]
    "Remote stack creation failed" (by decide)
    (fun p hp => ⟨"", by simpa using hp⟩)

/-- Claim C3: for every probe result whose status string is not
`<ACTION>_{IN_PROGRESS,COMPLETE,FAILED}` for the current action (reached
after observed in-progress results), the run marks the resource FAILED
and fails with kind `ResourceUnknownStatus` whose message is exactly
`Resource failed - Unknown status <STATUS>`. -/
theorem unknown_status_error (act : Action) (r : Resource)
    (oid : Option String) (ps qs : List Probe) (s rr : String)
    (hid : ¬ (requiresIdentity act = true ∧ r.identity = none))
    (hps : ∀ p ∈ ps, ∃ rr2, p = Probe.found (act.toStr ++ "_IN_PROGRESS") rr2)
    (hs : classify act s = none) :
    (perform act r (BackendResult.ok oid) (ps ++ Probe.found s rr :: qs) false).outcome =
      Except.error (Err.ResourceUnknownStatus ("Resource failed - Unknown status " ++ s)) ∧
    (perform act r (BackendResult.ok oid) (ps ++ Probe.found s rr :: qs)
        false).resource.status = Status.FAILED := by
  have key : ∀ r2 : Resource,
      pollLoop act r2 (ps ++ Probe.found s rr :: qs) 0 =
        ({ r2 with status := Status.FAILED },
         Except.error (Err.ResourceUnknownStatus ("Resource failed - Unknown status " ++ s)),
         ps.length + 1) := by
    intro r2
    rw [pollLoop_consumes_in_progress act r2 ps _ 0 hps]
    simp [pollLoop, hs]
  by_cases hcr : act = Action.CREATE ∧ r.identity = none
  · obtain ⟨ha, hb⟩ := hcr
    subst ha
    simp [perform, requiresIdentity, hb, key]
  · simp [perform, hid, hcr, key]

/-- Witness for C3 at the concrete input of `test_stack_status_error`:
a DELETE that observes DELETE_IN_PROGRESS then UPDATE_COMPLETE. -/
theorem unknown_status_error_witness :
    (perform Action.DELETE createdResource (BackendResult.ok none)
        ([Probe.found (Action.DELETE.toStr ++ "_IN_PROGRESS") ""] ++
          Probe.found "UPDATE_COMPLETE" "" :: []) false).outcome =
      Except.error (Err.ResourceUnknownStatus
        ("Resource failed - Unknown status " ++ "UPDATE_COMPLETE")) ∧
    (perform Action.DELETE createdResource (BackendResult.ok none)
        ([Probe.found (Action.DELETE.toStr ++ "_IN_PROGRESS") ""] ++
          Probe.found "UPDATE_COMPLETE" "" :: []) false).resource.status = Status.FAILED :=
  unknown_status_error Action.DELETE createdResource none
    [Probe.found (Action.DELETE.toStr ++ "_IN_PROGRESS") ""] []
    "UPDATE_COMPLETE" "" (by decide)
    (fun p hp => ⟨"", by simpa using hp⟩) (by decide)

/-- Claim C4: delete is idempotent with respect to the remote side. If
the delete call itself reports not-found, the operation succeeds in
state (DELETE, COMPLETE) with no polling at all; if a subsequent probe
reports not-found, it succeeds in (DELETE, COMPLETE) with no further
polling after the not-found signal (probe count stops there). The
firewall handler likewise swallows a 404 from `delete_firewall`
(firewall.py lines 72-80). -/
theorem delete_idempotent (r : Resource) (iden : String) (ps qs : List Probe) (rep : Bool)
    (n : Nat) (fill : String)
    (hid : r.identity = some iden) :
    ((perform Action.DELETE r BackendResult.gone ps rep).outcome = Except.ok () ∧
     (perform Action.DELETE r BackendResult.gone ps rep).resource.action = Action.DELETE ∧
     (perform Action.DELETE r BackendResult.gone ps rep).resource.status = Status.COMPLETE ∧
     (perform Action.DELETE r BackendResult.gone ps rep).probeCalls = 0) ∧
    ((perform Action.DELETE r (BackendResult.ok none)
        (List.replicate n (Probe.found (Action.DELETE.toStr ++ "_IN_PROGRESS") fill) ++
          Probe.notFound :: qs) rep).outcome = Except.ok () ∧
     (perform Action.DELETE r (BackendResult.ok none)
        (List.replicate n (Probe.found (Action.DELETE.toStr ++ "_IN_PROGRESS") fill) ++
          Probe.notFound :: qs) rep).resource.action = Action.DELETE ∧
     (perform Action.DELETE r (BackendResult.ok none)
        (List.replicate n (Probe.found (Action.DELETE.toStr ++ "_IN_PROGRESS") fill) ++
          Probe.notFound :: qs) rep).resource.status = Status.COMPLETE ∧
     (perform Action.DELETE r (BackendResult.ok none)
        (List.replicate n (Probe.found (Action.DELETE.toStr ++ "_IN_PROGRESS") fill) ++
          Probe.notFound :: qs) rep).probeCalls = n + 1) ∧
    Firewall.handle_delete (DeleteOutcome.clientError 404) = Except.ok false := by
  refine ⟨?_, ?_, rfl⟩
  · simp [perform, hid]
  · have hps : ∀ p ∈ List.replicate n (Probe.found (Action.DELETE.toStr ++ "_IN_PROGRESS") fill),
        ∃ rr, p = Probe.found (Action.DELETE.toStr ++ "_IN_PROGRESS") rr := by
      intro p hp
      exact ⟨fill, List.eq_of_mem_replicate hp⟩
    simp only [perform, hid]
    rw [pollLoop_consumes_in_progress Action.DELETE _ _ _ 0 hps]
    simp [pollLoop, List.length_replicate]

/-- Witness for C4 at the concrete input of `test_delete_already_gone`:
both the delete call and the first probe report not-found. -/
theorem delete_idempotent_witness :
    ((perform Action.DELETE createdResource BackendResult.gone [] false).outcome =
        Except.ok () ∧
     (perform Action.DELETE createdResource BackendResult.gone [] false).resource.action =
        Action.DELETE ∧
     (perform Action.DELETE createdResource BackendResult.gone [] false).resource.status =
        Status.COMPLETE ∧
     (perform Action.DELETE createdResource BackendResult.gone [] false).probeCalls = 0) ∧
    ((perform Action.DELETE createdResource (BackendResult.ok none)
        (List.replicate 0 (Probe.found (Action.DELETE.toStr ++ "_IN_PROGRESS") "") ++
          Probe.notFound :: []) false).outcome = Except.ok () ∧
     (perform Action.DELETE createdResource (BackendResult.ok none)
        (List.replicate 0 (Probe.found (Action.DELETE.toStr ++ "_IN_PROGRESS") "") ++
          Probe.notFound :: []) false).resource.action = Action.DELETE ∧
     (perform Action.DELETE createdResource (BackendResult.ok none)
        (List.replicate 0 (Probe.found (Action.DELETE.toStr ++ "_IN_PROGRESS") "") ++
          Probe.notFound :: []) false).resource.status = Status.COMPLETE ∧
     (perform Action.DELETE createdResource (BackendResult.ok none)
        (List.replicate 0 (Probe.found (Action.DELETE.toStr ++ "_IN_PROGRESS") "") ++
          Probe.notFound :: []) false).probeCalls = 0 + 1) ∧
    Firewall.handle_delete (DeleteOutcome.clientError 404) = Except.ok false :=
  delete_idempotent createdResource "c8a19429-7fde-47ea-a42f-40045488226c" [] [] false 0 "" rfl

/-- Claim C5: identity is assigned at most once. A CREATE on a resource
with unset identity leaves `identity` equal to the identifier returned
by `createRemote` (whatever the probes report afterwards, so in
particular after a completed CREATE), and no later action — CREATE
excluded, so including a failed DELETE — ever reassigns or clears the
identity of any resource. -/
theorem identity_set_once (r : Resource) (newId : String) (ps : List Probe) (rep : Bool)
    (hun : r.identity = none) :
    (perform Action.CREATE r (BackendResult.ok (some newId)) ps rep).resource.identity =
      some newId ∧
    ∀ (r2 : Resource) (act : Action) (b : BackendResult) (qs : List Probe) (rep2 : Bool),
      act ≠ Action.CREATE →
      (perform act r2 b qs rep2).resource.identity = r2.identity := by
  constructor
  · simp [perform, requiresIdentity, hun, pollLoop_identity]
  · intro r2 act b qs rep2 hact
    by_cases h1 : requiresIdentity act ∧ r2.identity = none
    · simp [perform, h1]
    · by_cases h2 : act = Action.UPDATE ∧ rep2 = true
      · obtain ⟨ha, hb⟩ := h2
        subst ha
        have hne : ¬ r2.identity = none := fun hid => h1 ⟨rfl, hid⟩
        simp [perform, requiresIdentity, hne, hb]
      · cases b with
        | fault => simp [perform, h1, h2]
        | gone =>
            by_cases h3 : act = Action.DELETE
            · subst h3
              have hne : ¬ r2.identity = none := fun hid => h1 ⟨rfl, hid⟩
              simp [perform, requiresIdentity, hne]
            · simp [perform, h1, h2, h3]
        | ok ident => simp [perform, h1, h2, hact, pollLoop_identity]

/-- Witness for C5: creating the fresh remote stack with the backend id
of the tests, then checking a non-CREATE action (the failed DELETE of
`test_delete_failed`) preserves the identity. -/
theorem identity_set_once_witness :
    (perform Action.CREATE initResource
        (BackendResult.ok (some "c8a19429-7fde-47ea-a42f-40045488226c"))
        [Probe.found "CREATE_IN_PROGRESS" "", Probe.found "CREATE_COMPLETE" ""]
        false).resource.identity = some "c8a19429-7fde-47ea-a42f-40045488226c" ∧
    ∀ (r2 : Resource) (act : Action) (b : BackendResult) (qs : List Probe) (rep2 : Bool),
      act ≠ Action.CREATE →
      (perform act r2 b qs rep2).resource.identity = r2.identity :=
  identity_set_once initResource "c8a19429-7fde-47ea-a42f-40045488226c"
    [Probe.found "CREATE_IN_PROGRESS" "", Probe.found "CREATE_COMPLETE" ""] false rfl

/-- Claim C6: whenever the run returns control — success or failure —
the resource status is terminal (COMPLETE or FAILED), never left at
IN_PROGRESS. The entry state is terminal because actions on one
resource are strictly serialized (spec section 5) and every run exits
terminal, starting from the initial (INIT, COMPLETE). -/
theorem run_leaves_terminal_state (act : Action) (r : Resource) (b : BackendResult)
    (ps : List Probe) (rep : Bool)
    (h : r.status = Status.COMPLETE ∨ r.status = Status.FAILED) :
    (perform act r b ps rep).resource.status = Status.COMPLETE ∨
    (perform act r b ps rep).resource.status = Status.FAILED := by
  by_cases h1 : requiresIdentity act ∧ r.identity = none
  · right; simp [perform, h1]
  · by_cases h2 : act = Action.UPDATE ∧ rep = true
    · obtain ⟨ha, hb⟩ := h2
      subst ha
      have hne : ¬ r.identity = none := fun hid => h1 ⟨rfl, hid⟩
      simpa [perform, requiresIdentity, hne, hb] using h
    · cases b with
      | fault => right; simp [perform, h1, h2]
      | gone => by_cases h3 : act = Action.DELETE
                · subst h3
                  have hne : ¬ r.identity = none := fun hid => h1 ⟨rfl, hid⟩
                  left; simp [perform, requiresIdentity, hne]
                · right; simp [perform, h1, h2, h3]
      | ok ident =>
          have := pollLoop_terminal act ps
          simp only [perform, h1, h2]
          rcases pollLoop_terminal act ps
            (if act = Action.CREATE ∧
                ({ r with action := act, status := Status.IN_PROGRESS } :
                  Resource).identity = none
              then { r with action := act, status := Status.IN_PROGRESS, identity := ident }
              else { r with action := act, status := Status.IN_PROGRESS }) 0 with ht | ht
          · left; simpa [h1, h2] using ht
          · right; simpa [h1, h2] using ht

/-- Witness for C6 at the concrete input of `test_create_failed`: a
CREATE whose probes end in CREATE_FAILED still leaves a terminal state. -/
theorem run_leaves_terminal_state_witness :
    (Status.COMPLETE = Status.COMPLETE ∨ Status.COMPLETE = Status.FAILED) ∧
    ((perform Action.CREATE initResource
        (BackendResult.ok (some "c8a19429-7fde-47ea-a42f-40045488226c"))
        [Probe.found "CREATE_IN_PROGRESS" "",
         Probe.found "CREATE_FAILED" "Remote stack creation failed"]
        false).resource.status = Status.COMPLETE ∨
     (perform Action.CREATE initResource
        (BackendResult.ok (some "c8a19429-7fde-47ea-a42f-40045488226c"))
        [Probe.found "CREATE_IN_PROGRESS" "",
         Probe.found "CREATE_FAILED" "Remote stack creation failed"]
        false).resource.status = Status.FAILED) :=
  ⟨Or.inl rfl,
   run_leaves_terminal_state Action.CREATE initResource
     (BackendResult.ok (some "c8a19429-7fde-47ea-a42f-40045488226c"))
     [Probe.found "CREATE_IN_PROGRESS" "",
      Probe.found "CREATE_FAILED" "Remote stack creation failed"] false (Or.inl rfl)⟩

/-- A lookup over an association list none of whose keys is the
requested one yields nothing. -/
theorem lookup_eq_none_of_no_key (key : String) (attrs : List (String × String))
    (h : ∀ kv ∈ attrs, kv.1 ≠ key) : attrs.lookup key = none := by
  induction attrs with
  | nil => rfl
  | cons kv rest ih =>
      have h1 := h kv (List.mem_cons_self kv rest)
      have h2 : ∀ kv2 ∈ rest, kv2.1 ≠ key := fun kv2 hk => h kv2 (List.mem_cons_of_mem _ hk)
      cases kv with
      | mk k v =>
          simp only [List.lookup]
          have hne : (key == k) = false := by
            simp only [ne_eq] at h1
            simp [beq_eq_false_iff_ne]
            exact fun he => h1 he.symm
          rw [hne]
          · exact ih h2

/-- Claim C8: for every attribute lookup with a name absent from the
`showAttributes` result, the lookup fails with kind `InvalidAttribute`
whose message is exactly
"The Referenced Attribute (<resource> <name>) is incorrect.". -/
theorem attribute_lookup_invalid (resName key : String) (attrs : List (String × String))
    (h : ∀ kv ∈ attrs, kv.1 ≠ key) :
    FnGetAtt resName attrs key =
      Except.error (Err.InvalidAttribute ("The Referenced Attribute (" ++ resName ++ " " ++
        key ++ ") is incorrect.")) := by
  unfold FnGetAtt
  rw [lookup_eq_none_of_no_key key attrs h]

/-- Witness for C8 at the concrete input of `test_attribute_failed`:
looking up `non-existent_property` on the remote stack. -/
theorem attribute_lookup_invalid_witness :
    FnGetAtt "remote_stack" [("stack_name", "stack1"), ("foo", "bar")]
        "non-existent_property" =
      Except.error (Err.InvalidAttribute
        "The Referenced Attribute (remote_stack non-existent_property) is incorrect.") :=
  attribute_lookup_invalid "remote_stack" "non-existent_property"
    [("stack_name", "stack1"), ("foo", "bar")] (by decide)

end Heat
